import Mathlib

/-!
Verification of the serial-port abstraction library (`src/lib.rs`).

The library is embedded shallowly:

* the settings vocabulary (`BaudRate`, `CharSize`, `Parity`, `StopBits`,
  `FlowControl`) and the aggregate `PortSettings` record are translated
  field for field;
* the error model (`ErrorKind`, `Error`) and the host I/O error type
  (`std::io::Error`, modelled as `IoError` with its `ErrorKind` list)
  together with both `From` conversions;
* the `SerialPortSettings` trait becomes a record of operations
  `SerialPortSettingsOps S`; the `&mut self` setters become state-passing
  functions `S → … → S` (the fallible baud setter returns
  `Except Error S`);
* a `SerialDevice` becomes a record holding its settings operations,
  `read_settings : σ → Except Error S` (takes `&self`, so it cannot change
  the device state) and `write_settings : σ → S → σ × Except Error Unit`
  (takes `&mut self`, so it returns the successor state as well);
* the blanket `impl<T: SerialDevice> SerialPort for T` gives `configure`
  and `reconfigure`, translated statement by statement.

"The write operation is never invoked" is expressed extensionally: the
outcome is the same, and equal to `(initial state, error)`, for every
possible `write_settings` function.  "write_settings is invoked exactly
once, on object `x`" is expressed as the equation
`… = d.write_settings st x`.
-/

namespace Serial

/-- Serial port baud rates (`enum BaudRate`); `BaudOther` carries an
arbitrary non-standard rate (`usize`, modelled as `Nat`). -/
inductive BaudRate where
  | Baud110
  | Baud300
  | Baud600
  | Baud1200
  | Baud2400
  | Baud4800
  | Baud9600
  | Baud19200
  | Baud38400
  | Baud57600
  | Baud115200
  | BaudOther (rate : Nat)
  deriving DecidableEq, Repr

/-- Number of bits per character (`enum CharSize`). -/
inductive CharSize where
  | Bits5
  | Bits6
  | Bits7
  | Bits8
  deriving DecidableEq, Repr

/-- Parity checking modes (`enum Parity`). -/
inductive Parity where
  | ParityNone
  | ParityOdd
  | ParityEven
  deriving DecidableEq, Repr

/-- Number of stop bits (`enum StopBits`). -/
inductive StopBits where
  | Stop1
  | Stop2
  deriving DecidableEq, Repr

/-- Flow control modes (`enum FlowControl`). -/
inductive FlowControl where
  | FlowNone
  | FlowSoftware
  | FlowHardware
  deriving DecidableEq, Repr

/-- The host I/O error kinds (`std::io::ErrorKind`, the stable variants of
the Rust 1.x standard library). -/
inductive IoErrorKind where
  | notFound
  | permissionDenied
  | connectionRefused
  | connectionReset
  | connectionAborted
  | notConnected
  | addrInUse
  | addrNotAvailable
  | brokenPipe
  | alreadyExists
  | wouldBlock
  | invalidInput
  | invalidData
  | timedOut
  | writeZero
  | interrupted
  | unexpectedEof
  | other
  deriving DecidableEq, Repr

/-- Categories of serial-port errors (`enum ErrorKind`). -/
inductive ErrorKind where
  | NoDevice
  | InvalidInput
  | Io (kind : IoErrorKind)
  deriving DecidableEq, Repr

/-- The serial-port error type (`struct Error`): a kind plus a
human-readable description. -/
structure Error where
  kind : ErrorKind
  description : String
  deriving DecidableEq, Repr

/-- `Error::new` (lib.rs line 68). -/
def Error.new (kind : ErrorKind) (description : String) : Error :=
  { kind := kind, description := description }

/-- The host I/O error (`std::io::Error`): a kind plus a message.
`io::Error::new(kind, msg)` stores the message, and the `Display`
rendering of such an error (what `format!("\x7b\x7d", io_error)`
produces) is that message. -/
structure IoError where
  kind : IoErrorKind
  message : String
  deriving DecidableEq, Repr

/-- The `Display` rendering of a host I/O error, used by
`From<io::Error> for Error` via `format!`. -/
def IoError.display (e : IoError) : String :=
  e.message

/-- `impl From<io::Error> for Error` (lib.rs lines 93-97). -/
def Error.fromIoError (io_error : IoError) : Error :=
  Error.new (ErrorKind.Io io_error.kind) io_error.display

/-- `impl From<Error> for io::Error` (lib.rs lines 99-109). -/
def IoError.fromError (error : Error) : IoError :=
  let kind := match error.kind with
    | ErrorKind.NoDevice => IoErrorKind.notFound
    | ErrorKind.InvalidInput => IoErrorKind.invalidInput
    | ErrorKind.Io kind => kind
  { kind := kind, message := error.description }

/-- The device-independent settings record (`struct PortSettings`). -/
structure PortSettings where
  baud_rate : BaudRate
  char_size : CharSize
  parity : Parity
  stop_bits : StopBits
  flow_control : FlowControl
  deriving DecidableEq, Repr

/-- `impl Default for PortSettings` (lib.rs lines 701-711). -/
def PortSettings.default : PortSettings :=
  { baud_rate := BaudRate.Baud9600
    char_size := CharSize.Bits8
    parity := Parity.ParityNone
    stop_bits := StopBits.Stop1
    flow_control := FlowControl.FlowNone }

/-- The `SerialPortSettings` trait as a record of operations on a settings
type `S`: the five queries return `Option` (a value of `none` means the
field could not be determined), the baud setter is fallible, the other
four setters are total.  `&mut self` setters are modelled state-passing. -/
structure SerialPortSettingsOps (S : Type) where
  baud_rate : S → Option BaudRate
  char_size : S → Option CharSize
  parity : S → Option Parity
  stop_bits : S → Option StopBits
  flow_control : S → Option FlowControl
  set_baud_rate : S → BaudRate → Except Error S
  set_char_size : S → CharSize → S
  set_parity : S → Parity → S
  set_stop_bits : S → StopBits → S
  set_flow_control : S → FlowControl → S

/-- `impl SerialPortSettings for PortSettings` (lib.rs lines 713-754):
every query returns `Some` of the record field, every setter stores its
argument, and `set_baud_rate` always succeeds. -/
def PortSettings.settingsOps : SerialPortSettingsOps PortSettings where
  baud_rate s := some s.baud_rate
  char_size s := some s.char_size
  parity s := some s.parity
  stop_bits s := some s.stop_bits
  flow_control s := some s.flow_control
  set_baud_rate s baud_rate := Except.ok { s with baud_rate := baud_rate }
  set_char_size s char_size := { s with char_size := char_size }
  set_parity s parity := { s with parity := parity }
  set_stop_bits s stop_bits := { s with stop_bits := stop_bits }
  set_flow_control s flow_control := { s with flow_control := flow_control }

/-- The `SerialDevice` trait: a device with state type `σ` and settings
type `S`.  `read_settings` takes `&self` (it cannot change the device
state); `write_settings` takes `&mut self` and so returns both the
successor device state and the operation result. -/
structure SerialDevice (σ S : Type) where
  sops : SerialPortSettingsOps S
  read_settings : σ → Except Error S
  write_settings : σ → S → σ × Except Error Unit

/-- `SerialPort::configure` from the blanket impl (lib.rs lines 577-587):
read the live settings, set the baud rate (propagating failure with
`try!`), apply the four total setters, then write the result back. -/
def configure {σ S : Type} (d : SerialDevice σ S) (st : σ)
    (settings : PortSettings) : σ × Except Error Unit :=
  match d.read_settings st with
  | Except.error e => (st, Except.error e)
  | Except.ok device_settings =>
    match d.sops.set_baud_rate device_settings settings.baud_rate with
    | Except.error e => (st, Except.error e)
    | Except.ok device_settings =>
      let device_settings := d.sops.set_char_size device_settings settings.char_size
      let device_settings := d.sops.set_parity device_settings settings.parity
      let device_settings := d.sops.set_stop_bits device_settings settings.stop_bits
      let device_settings := d.sops.set_flow_control device_settings settings.flow_control
      d.write_settings st device_settings

/-- `SerialPort::reconfigure` from the blanket impl (lib.rs lines
589-593): read the live settings, run the caller-supplied mutator
(propagating its failure with `try!`), then write the result back. -/
def reconfigure {σ S : Type} (d : SerialDevice σ S) (st : σ)
    (setup : S → Except Error S) : σ × Except Error Unit :=
  match d.read_settings st with
  | Except.error e => (st, Except.error e)
  | Except.ok device_settings =>
    match setup device_settings with
    | Except.error e => (st, Except.error e)
    | Except.ok device_settings => d.write_settings st device_settings

/-- The four total-setter overlays of `configure` after the baud rate has
been set: char size, parity, stop bits, flow control, in source order.
Definitionally equal to the tail of `configure`. -/
def overlayRest {S : Type} (ops : SerialPortSettingsOps S) (s : S)
    (settings : PortSettings) : S :=
  ops.set_flow_control
    (ops.set_stop_bits
      (ops.set_parity
        (ops.set_char_size s settings.char_size)
        settings.parity)
      settings.stop_bits)
    settings.flow_control

/-- The documented contract of the `SerialPortSettings` trait, as assumed
by the configuration protocol: each setter stores a value its matching
query then reports, and a setter leaves the queries of the other fields
unchanged (the trait documentation: setters only mutate the in-memory
object, field by field). -/
structure LawfulSettingsOps {S : Type} (ops : SerialPortSettingsOps S) : Prop where
  baud_set_get : ∀ s b s', ops.set_baud_rate s b = Except.ok s' → ops.baud_rate s' = some b
  char_set_get : ∀ s c, ops.char_size (ops.set_char_size s c) = some c
  parity_set_get : ∀ s p, ops.parity (ops.set_parity s p) = some p
  stop_set_get : ∀ s x, ops.stop_bits (ops.set_stop_bits s x) = some x
  flow_set_get : ∀ s f, ops.flow_control (ops.set_flow_control s f) = some f
  char_set_keeps_baud : ∀ s c, ops.baud_rate (ops.set_char_size s c) = ops.baud_rate s
  parity_set_keeps_baud : ∀ s p, ops.baud_rate (ops.set_parity s p) = ops.baud_rate s
  stop_set_keeps_baud : ∀ s x, ops.baud_rate (ops.set_stop_bits s x) = ops.baud_rate s
  flow_set_keeps_baud : ∀ s f, ops.baud_rate (ops.set_flow_control s f) = ops.baud_rate s
  parity_set_keeps_char : ∀ s p, ops.char_size (ops.set_parity s p) = ops.char_size s
  stop_set_keeps_char : ∀ s x, ops.char_size (ops.set_stop_bits s x) = ops.char_size s
  flow_set_keeps_char : ∀ s f, ops.char_size (ops.set_flow_control s f) = ops.char_size s
  stop_set_keeps_parity : ∀ s x, ops.parity (ops.set_stop_bits s x) = ops.parity s
  flow_set_keeps_parity : ∀ s f, ops.parity (ops.set_flow_control s f) = ops.parity s
  flow_set_keeps_stop : ∀ s f, ops.stop_bits (ops.set_flow_control s f) = ops.stop_bits s
  stop_set_keeps_flow : ∀ s x, ops.flow_control (ops.set_stop_bits s x) = ops.flow_control s

/-- `PortSettings` satisfies the documented settings contract. -/
theorem PortSettings.settingsOps_lawful : LawfulSettingsOps PortSettings.settingsOps := by
  constructor <;> intros <;>
    first
    | rfl
    | (rename_i h; cases h; rfl)

namespace Mock

/-- A mock settings object used to witness the generic theorems: it
behaves like `PortSettings` except that its baud setter rejects every
non-standard (`BaudOther`) rate with `InvalidInput`, exercising the
fallible branch the real `PortSettings` never takes. -/
def rejectingOps : SerialPortSettingsOps PortSettings :=
  { PortSettings.settingsOps with
    set_baud_rate := fun s b =>
      match b with
      | BaudRate.BaudOther _ =>
        Except.error (Error.new ErrorKind.InvalidInput "baud rate not supported")
      | _ => Except.ok { s with baud_rate := b } }

/-- A mock in-memory backend used to witness the generic theorems: its
device state is the committed `PortSettings`, `read_settings` returns it
and `write_settings` replaces it. -/
def device (ops : SerialPortSettingsOps PortSettings) :
    SerialDevice PortSettings PortSettings where
  sops := ops
  read_settings c := Except.ok c
  write_settings _ s := (s, Except.ok ())

/-- The committed settings of the mock backend in the witnesses. -/
def committed : PortSettings :=
  { PortSettings.default with baud_rate := BaudRate.Baud19200 }

/-- A target whose baud rate the mock backend rejects. -/
def badTarget : PortSettings :=
  { PortSettings.default with baud_rate := BaudRate.BaudOther 12345 }

/-- The error the mock backend reports for a rejected baud rate. -/
def badBaudError : Error :=
  Error.new ErrorKind.InvalidInput "baud rate not supported"

/-- A target differing from the mock's committed settings in all five
fields. -/
def fullTarget : PortSettings :=
  { baud_rate := BaudRate.Baud115200
    char_size := CharSize.Bits7
    parity := Parity.ParityEven
    stop_bits := StopBits.Stop2
    flow_control := FlowControl.FlowHardware }

end Mock

/-- C5: `PortSettings::default()` is the record with 9600 baud, 8 data
bits, no parity, 1 stop bit and no flow control, and each of the five
queries on it returns `Some` of that value. -/
theorem default_settings :
    PortSettings.default =
      { baud_rate := BaudRate.Baud9600, char_size := CharSize.Bits8,
        parity := Parity.ParityNone, stop_bits := StopBits.Stop1,
        flow_control := FlowControl.FlowNone }
    ∧ PortSettings.settingsOps.baud_rate PortSettings.default = some BaudRate.Baud9600
    ∧ PortSettings.settingsOps.char_size PortSettings.default = some CharSize.Bits8
    ∧ PortSettings.settingsOps.parity PortSettings.default = some Parity.ParityNone
    ∧ PortSettings.settingsOps.stop_bits PortSettings.default = some StopBits.Stop1
    ∧ PortSettings.settingsOps.flow_control PortSettings.default = some FlowControl.FlowNone := by
  refine ⟨rfl, rfl, rfl, rfl, rfl, rfl⟩

/-- C1: when the device's settings object rejects the target's baud rate,
`configure` propagates that error and leaves the device state (and with
it the committed settings) unchanged — and this outcome is the same for
every possible `write_settings` function, so the write operation is never
invoked. -/
theorem configure_baud_reject {σ S : Type} (d : SerialDevice σ S) (st : σ)
    (target : PortSettings) (s₀ : S) (e : Error)
    (hread : d.read_settings st = Except.ok s₀)
    (hbaud : d.sops.set_baud_rate s₀ target.baud_rate = Except.error e) :
    ∀ ws, configure { d with write_settings := ws } st target = (st, Except.error e) := by
  intro ws
  simp [configure, hread, hbaud]

/-- Witness for C1: the mock backend rejects the non-standard baud rate of
`badTarget`, `configure` returns its `InvalidInput` error and the
committed settings survive unchanged. -/
theorem configure_baud_reject_witness :
    configure
        { Mock.device Mock.rejectingOps with write_settings := fun c _ => (c, Except.ok ()) }
        Mock.committed Mock.badTarget
      = (Mock.committed, Except.error Mock.badBaudError) :=
  configure_baud_reject (Mock.device Mock.rejectingOps) Mock.committed Mock.badTarget
    Mock.committed Mock.badBaudError rfl rfl _

/-- C2: when the caller-supplied mutator fails, `reconfigure` propagates
its error, leaves the device state unchanged and the outcome is the same
for every possible `write_settings` function (the write operation is never
invoked); when the mutator succeeds, the outcome is exactly one
application of `write_settings` to the mutated object. -/
theorem reconfigure_mutator {σ S : Type} (d : SerialDevice σ S) (st : σ)
    (setup : S → Except Error S) (s₀ : S)
    (hread : d.read_settings st = Except.ok s₀) :
    (∀ e, setup s₀ = Except.error e →
      ∀ ws, reconfigure { d with write_settings := ws } st setup = (st, Except.error e))
    ∧ (∀ ds, setup s₀ = Except.ok ds →
      reconfigure d st setup = d.write_settings st ds) := by
  constructor
  · intro e he ws
    simp [reconfigure, hread, he]
  · intro ds hds
    simp [reconfigure, hread, hds]

/-- Witness for C2 at the mock backend: a failing mutator leaves the
committed settings unchanged and propagates its error; a mutator that
sets the stop bits commits exactly the mutated object. -/
theorem reconfigure_mutator_witness :
    reconfigure
        { Mock.device PortSettings.settingsOps with
          write_settings := fun c _ => (c, Except.ok ()) }
        Mock.committed (fun _ => Except.error Mock.badBaudError)
      = (Mock.committed, Except.error Mock.badBaudError)
    ∧ reconfigure (Mock.device PortSettings.settingsOps) Mock.committed
        (fun s => Except.ok (PortSettings.settingsOps.set_stop_bits s StopBits.Stop2))
      = ({ Mock.committed with stop_bits := StopBits.Stop2 }, Except.ok ()) := by
  constructor
  · exact (reconfigure_mutator (Mock.device PortSettings.settingsOps) Mock.committed
      (fun _ => Except.error Mock.badBaudError) Mock.committed rfl).1 Mock.badBaudError rfl _
  · exact ((reconfigure_mutator (Mock.device PortSettings.settingsOps) Mock.committed
      (fun s => Except.ok (PortSettings.settingsOps.set_stop_bits s StopBits.Stop2))
      Mock.committed rfl).2
      { Mock.committed with stop_bits := StopBits.Stop2 } rfl).trans rfl

/-- C3: a successful `configure` reads the live settings, overlays all
five target fields (baud rate through the fallible setter, the rest
through the total setters, in source order) and hands exactly the overlaid
object to `write_settings`; under the documented settings contract that
object reports all five target fields. -/
theorem configure_overlay {σ S : Type} (d : SerialDevice σ S)
    (hl : LawfulSettingsOps d.sops) (st : σ) (target : PortSettings)
    (s₀ ds₁ : S)
    (hread : d.read_settings st = Except.ok s₀)
    (hbaud : d.sops.set_baud_rate s₀ target.baud_rate = Except.ok ds₁) :
    configure d st target = d.write_settings st (overlayRest d.sops ds₁ target)
    ∧ d.sops.baud_rate (overlayRest d.sops ds₁ target) = some target.baud_rate
    ∧ d.sops.char_size (overlayRest d.sops ds₁ target) = some target.char_size
    ∧ d.sops.parity (overlayRest d.sops ds₁ target) = some target.parity
    ∧ d.sops.stop_bits (overlayRest d.sops ds₁ target) = some target.stop_bits
    ∧ d.sops.flow_control (overlayRest d.sops ds₁ target) = some target.flow_control := by
  refine ⟨?_, ?_, ?_, ?_, ?_, ?_⟩
  · simp [configure, hread, hbaud, overlayRest]
  · rw [overlayRest, hl.flow_set_keeps_baud, hl.stop_set_keeps_baud,
      hl.parity_set_keeps_baud, hl.char_set_keeps_baud]
    exact hl.baud_set_get s₀ target.baud_rate ds₁ hbaud
  · rw [overlayRest, hl.flow_set_keeps_char, hl.stop_set_keeps_char,
      hl.parity_set_keeps_char]
    exact hl.char_set_get _ _
  · rw [overlayRest, hl.flow_set_keeps_parity, hl.stop_set_keeps_parity]
    exact hl.parity_set_get _ _
  · rw [overlayRest, hl.flow_set_keeps_stop]
    exact hl.stop_set_get _ _
  · exact hl.flow_set_get _ _

/-- Witness for C3 at the mock backend: configuring to a target differing
in all five fields commits exactly the target record. -/
theorem configure_overlay_witness :
    configure (Mock.device PortSettings.settingsOps) Mock.committed Mock.fullTarget
      = (Mock.fullTarget, Except.ok ()) := by
  have h := configure_overlay (Mock.device PortSettings.settingsOps)
    PortSettings.settingsOps_lawful Mock.committed Mock.fullTarget
    Mock.committed { Mock.committed with baud_rate := Mock.fullTarget.baud_rate } rfl rfl
  exact h.1.trans rfl

/-- C4: `reconfigure` with a mutator that only sets the stop bits to 2,
on a device whose live-read settings report baud rate 19200, commits the
mutated live object: its baud rate is still 19200, its stop bits are 2,
and under the documented settings contract every untouched field is
unchanged between the read and the write. -/
theorem reconfigure_stop_bits_frame {σ S : Type} (d : SerialDevice σ S)
    (hl : LawfulSettingsOps d.sops) (st : σ) (s₀ : S)
    (hread : d.read_settings st = Except.ok s₀)
    (hbaud : d.sops.baud_rate s₀ = some BaudRate.Baud19200) :
    reconfigure d st (fun s => Except.ok (d.sops.set_stop_bits s StopBits.Stop2))
      = d.write_settings st (d.sops.set_stop_bits s₀ StopBits.Stop2)
    ∧ d.sops.baud_rate (d.sops.set_stop_bits s₀ StopBits.Stop2) = some BaudRate.Baud19200
    ∧ d.sops.stop_bits (d.sops.set_stop_bits s₀ StopBits.Stop2) = some StopBits.Stop2
    ∧ d.sops.char_size (d.sops.set_stop_bits s₀ StopBits.Stop2) = d.sops.char_size s₀
    ∧ d.sops.parity (d.sops.set_stop_bits s₀ StopBits.Stop2) = d.sops.parity s₀
    ∧ d.sops.flow_control (d.sops.set_stop_bits s₀ StopBits.Stop2) = d.sops.flow_control s₀ := by
  refine ⟨?_, (hl.stop_set_keeps_baud s₀ _).trans hbaud, hl.stop_set_get s₀ _,
    hl.stop_set_keeps_char s₀ _, hl.stop_set_keeps_parity s₀ _, hl.stop_set_keeps_flow s₀ _⟩
  simp [reconfigure, hread]

/-- Witness for C4 at the mock backend committed at 19200 baud: the
stop-bits-only mutator commits baud 19200 with stop bits 2. -/
theorem reconfigure_stop_bits_frame_witness :
    reconfigure (Mock.device PortSettings.settingsOps) Mock.committed
        (fun s => Except.ok (PortSettings.settingsOps.set_stop_bits s StopBits.Stop2))
      = ({ Mock.committed with stop_bits := StopBits.Stop2 }, Except.ok ())
    ∧ PortSettings.settingsOps.baud_rate { Mock.committed with stop_bits := StopBits.Stop2 }
      = some BaudRate.Baud19200 := by
  have h := reconfigure_stop_bits_frame (Mock.device PortSettings.settingsOps)
    PortSettings.settingsOps_lawful Mock.committed Mock.committed rfl rfl
  exact ⟨h.1.trans rfl, h.2.1⟩

/-- C6: on `PortSettings`, setting then getting a field returns the value
just set, for all five fields; for the baud rate this holds whenever the
setter succeeds (it always does). -/
theorem set_get_roundtrip (s : PortSettings) (b : BaudRate) (c : CharSize)
    (p : Parity) (x : StopBits) (f : FlowControl) :
    (∀ s', PortSettings.settingsOps.set_baud_rate s b = Except.ok s' →
      PortSettings.settingsOps.baud_rate s' = some b)
    ∧ PortSettings.settingsOps.char_size (PortSettings.settingsOps.set_char_size s c) = some c
    ∧ PortSettings.settingsOps.parity (PortSettings.settingsOps.set_parity s p) = some p
    ∧ PortSettings.settingsOps.stop_bits (PortSettings.settingsOps.set_stop_bits s x) = some x
    ∧ PortSettings.settingsOps.flow_control (PortSettings.settingsOps.set_flow_control s f)
      = some f := by
  refine ⟨?_, rfl, rfl, rfl, rfl⟩
  intro s' h
  have h' : ({ s with baud_rate := b } : PortSettings) = s' := by
    simpa [PortSettings.settingsOps] using h
  subst h'
  rfl

/-- Witness for C6 at concrete values, discharging the success hypothesis
of the baud-rate round trip. -/
theorem set_get_roundtrip_witness :
    PortSettings.settingsOps.char_size
        (PortSettings.settingsOps.set_char_size PortSettings.default CharSize.Bits7)
      = some CharSize.Bits7
    ∧ PortSettings.settingsOps.baud_rate
        { PortSettings.default with baud_rate := BaudRate.Baud115200 }
      = some BaudRate.Baud115200 := by
  have h := set_get_roundtrip PortSettings.default BaudRate.Baud115200 CharSize.Bits7
    Parity.ParityEven StopBits.Stop2 FlowControl.FlowSoftware
  exact ⟨h.2.1, h.1 _ rfl⟩

/-- C7: converting an `Error` to a host I/O error maps `NoDevice` to
`notFound`, `InvalidInput` to `invalidInput` and `Io k` to `k`,
preserving the description as the message; converting a host I/O error
to an `Error` yields kind `Io` of the original kind with the error's
`Display` rendering (its message) as description. -/
theorem error_io_conversions :
    (∀ d, IoError.fromError (Error.new ErrorKind.NoDevice d)
      = { kind := IoErrorKind.notFound, message := d })
    ∧ (∀ d, IoError.fromError (Error.new ErrorKind.InvalidInput d)
      = { kind := IoErrorKind.invalidInput, message := d })
    ∧ (∀ k d, IoError.fromError (Error.new (ErrorKind.Io k) d) = { kind := k, message := d })
    ∧ (∀ e : Error, (IoError.fromError e).message = e.description)
    ∧ (∀ io_error : IoError, Error.fromIoError io_error
      = Error.new (ErrorKind.Io io_error.kind) io_error.display)
    ∧ (∀ io_error : IoError, (Error.fromIoError io_error).description = io_error.message) :=
  ⟨fun _ => rfl, fun _ => rfl, fun _ _ => rfl, fun _ => rfl, fun _ => rfl, fun _ => rfl⟩

/-- C8: the round trip `Error` to host I/O error and back is lossless for
`Io k` variants (kind and description both restored); `NoDevice` and
`InvalidInput` collapse to `Io notFound` and `Io invalidInput`
respectively, keeping the description. -/
theorem error_io_roundtrip :
    (∀ k d, Error.fromIoError (IoError.fromError (Error.new (ErrorKind.Io k) d))
      = Error.new (ErrorKind.Io k) d)
    ∧ (∀ d, Error.fromIoError (IoError.fromError (Error.new ErrorKind.NoDevice d))
      = Error.new (ErrorKind.Io IoErrorKind.notFound) d)
    ∧ (∀ d, Error.fromIoError (IoError.fromError (Error.new ErrorKind.InvalidInput d))
      = Error.new (ErrorKind.Io IoErrorKind.invalidInput) d) :=
  ⟨fun _ _ => rfl, fun _ => rfl, fun _ => rfl⟩

/-- C9: every field query on every `PortSettings` value returns `Some`;
since every value reachable by any sequence of setter calls is again a
`PortSettings`, no query ever returns `none`. -/
theorem queries_always_some (s : PortSettings) :
    (PortSettings.settingsOps.baud_rate s).isSome = true
    ∧ (PortSettings.settingsOps.char_size s).isSome = true
    ∧ (PortSettings.settingsOps.parity s).isSome = true
    ∧ (PortSettings.settingsOps.stop_bits s).isSome = true
    ∧ (PortSettings.settingsOps.flow_control s).isSome = true :=
  ⟨rfl, rfl, rfl, rfl, rfl⟩

/-- C10: `PortSettings::set_baud_rate` succeeds on every argument,
`BaudOther` included — its error branch is unreachable — so `configure`
on a device whose settings type is `PortSettings` never fails at the
baud-rate step: whenever the read succeeds it always reaches the write,
committing exactly the target record. -/
theorem set_baud_rate_infallible :
    (∀ (s : PortSettings) (b : BaudRate),
      PortSettings.settingsOps.set_baud_rate s b = Except.ok { s with baud_rate := b })
    ∧ (∀ {σ : Type} (rd : σ → Except Error PortSettings)
        (wr : σ → PortSettings → σ × Except Error Unit) (st : σ)
        (s₀ target : PortSettings), rd st = Except.ok s₀ →
        configure ⟨PortSettings.settingsOps, rd, wr⟩ st target = wr st target) := by
  constructor
  · intro s b
    rfl
  · intro σ rd wr st s₀ target hread
    simp [configure, hread, PortSettings.settingsOps]

/-- Witness for C10: the mock backend accepts a `BaudOther` rate through
`configure` and commits the full target. -/
theorem set_baud_rate_infallible_witness :
    configure (Mock.device PortSettings.settingsOps) Mock.committed
        { PortSettings.default with baud_rate := BaudRate.BaudOther 4000000 }
      = ({ PortSettings.default with baud_rate := BaudRate.BaudOther 4000000 },
          Except.ok ()) :=
  set_baud_rate_infallible.2 (fun c => Except.ok c) (fun _ s => (s, Except.ok ()))
    Mock.committed Mock.committed
    { PortSettings.default with baud_rate := BaudRate.BaudOther 4000000 } rfl

end Serial
